import Mathlib

/-!
Shallow embedding of `sec_connector` (company lookup, filing filtering,
document download) and proofs of the specification's claims about it.

The definitions below are translated from `src/sec_connector/client.py` and
`src/sec_connector/models.py`.  Python strings are modelled as Lean `String`
(the ASCII fragment the program manipulates), Python `datetime.date` as a
year/month/day record with lexicographic order, and the `httpx` transport as
an oracle mapping a URL to an HTTP outcome.
-/

namespace SecConnector

/-! ### Python string primitives -/

/-- Whitespace test used by Python `str.strip` (ASCII fragment:
space, tab, newline, carriage return, vertical tab, form feed). -/
def pyIsSpace (c : Char) : Bool :=
  c.toNat = 32 || c.toNat = 9 || c.toNat = 10 || c.toNat = 13 ||
  c.toNat = 11 || c.toNat = 12

/-- Characters of a string with leading and trailing whitespace removed,
as Python `str.strip()`. -/
def stripChars (cs : List Char) : List Char :=
  ((cs.dropWhile pyIsSpace).reverse.dropWhile pyIsSpace).reverse

/-- Python `str.strip()`. -/
def pyStrip (s : String) : String :=
  String.mk (stripChars s.data)

/-- Python `str.upper` on a single character (ASCII fragment:
maps a–z to A–Z, leaves everything else unchanged). -/
def pyToUpper (c : Char) : Char :=
  if 97 ≤ c.toNat ∧ c.toNat ≤ 122 then Char.ofNat (c.toNat - 32) else c

/-- Python `str.upper()` (ASCII fragment). -/
def pyUpper (s : String) : String :=
  String.mk (s.data.map pyToUpper)

/-- Characters of Python `str.zfill(width)`: left-pad with ASCII zeros up to
`width`; a leading sign character stays in front of the padding. -/
def zfillChars (cs : List Char) (width : Nat) : List Char :=
  match cs with
  | [] => List.replicate width '0'
  | c :: rest =>
    if c = '+' ∨ c = '-' then
      c :: (List.replicate (width - cs.length) '0' ++ rest)
    else
      List.replicate (width - cs.length) '0' ++ cs

/-- Python `str.zfill(width)`. -/
def pyZfill (s : String) (width : Nat) : String :=
  String.mk (zfillChars s.data width)

/-- Python `str.endswith(suffix)`. -/
def pyEndsWith (s suffix : String) : Bool :=
  suffix.data.isSuffixOf s.data

/-- Replacement of the leftmost-first, non-overlapping occurrences of
`pat` by `rep`, scanning left to right; the fuel argument (instantiated
with the string length) only makes the recursion structural. -/
def replaceCharsAux (pat rep : List Char) : Nat → List Char → List Char
  | 0, cs => cs
  | _ + 1, [] => []
  | fuel + 1, c :: rest =>
    if pat.isPrefixOf (c :: rest) then
      rep ++ replaceCharsAux pat rep fuel ((c :: rest).drop pat.length)
    else
      c :: replaceCharsAux pat rep fuel rest

/-- Python `str.replace(pat, rep)` for a non-empty pattern (the program
only replaces the non-empty patterns `"-"` and `".txt"`); an empty pattern
leaves the string unchanged. -/
def pyReplace (s pat rep : String) : String :=
  if pat = "" then s
  else String.mk (replaceCharsAux pat.data rep.data s.data.length s.data)

/-! ### Calendar dates (`datetime.date`) -/

/-- A calendar date as carried by `datetime.date`. -/
structure Date where
  year : Nat
  month : Nat
  day : Nat
deriving DecidableEq, Repr

/-- Comparison of dates, as Python compares `datetime.date` values
(lexicographic on year, month, day). -/
def Date.le (a b : Date) : Bool :=
  decide (a.year < b.year ∨ (a.year = b.year ∧
    (a.month < b.month ∨ (a.month = b.month ∧ a.day ≤ b.day))))

/-- Gregorian leap-year rule used by `datetime.date` validation. -/
def isLeap (y : Nat) : Bool :=
  y % 4 = 0 && (y % 100 ≠ 0 || y % 400 = 0)

/-- Number of days in a month, as `datetime.date` validation uses. -/
def daysInMonth (y m : Nat) : Nat :=
  if m = 2 then (if isLeap y then 29 else 28)
  else if m = 4 ∨ m = 6 ∨ m = 9 ∨ m = 11 then 30
  else 31

/-- Numeric value of an ASCII digit, `none` for a non-digit. -/
def digitVal (c : Char) : Option Nat :=
  if 48 ≤ c.toNat ∧ c.toNat ≤ 57 then some (c.toNat - 48) else none

/-- Parsing of an ISO `YYYY-MM-DD` string into a valid calendar date, as
pydantic validates the `filing_date` field of `Filing`; `none` when the
string is not of that shape or the date is not a valid calendar date. -/
def parseDate (s : String) : Option Date :=
  match s.data with
  | [y1, y2, y3, y4, h1, m1, m2, h2, d1, d2] =>
    if h1 = '-' ∧ h2 = '-' then
      match digitVal y1, digitVal y2, digitVal y3, digitVal y4,
            digitVal m1, digitVal m2, digitVal d1, digitVal d2 with
      | some a, some b, some c, some d, some e, some f, some g, some h =>
        let y := ((a * 10 + b) * 10 + c) * 10 + d
        let m := e * 10 + f
        let dd := g * 10 + h
        if 1 ≤ y ∧ 1 ≤ m ∧ m ≤ 12 ∧ 1 ≤ dd ∧ dd ≤ daysInMonth y m then
          some ⟨y, m, dd⟩
        else none
      | _, _, _, _, _, _, _, _ => none
    else none
  | _ => none

/-! ### Data model (`models.py`) -/

/-- Value of the companies dictionary: per-ticker company info. -/
structure CompanyInfo where
  cik : String
  name : String
deriving DecidableEq, Repr

/-- The `Company` model. -/
structure Company where
  ticker : String
  cik : String
  name : String
deriving DecidableEq, Repr

/-- A raw filing dictionary as stored in `filings_data`: all fields are
strings; `filing_date` is an ISO date string not yet validated. -/
structure RawFiling where
  cik : String
  company_name : String
  form_type : String
  filing_date : String
  accession_number : String
deriving DecidableEq, Repr

/-- The `Filing` model: `filing_date` has been validated into a date. -/
structure Filing where
  cik : String
  company_name : String
  form_type : String
  filing_date : Date
  accession_number : String
deriving DecidableEq, Repr

/-- Construction `Filing(**filing_dict)`: succeeds exactly when the date
string validates; on failure the record is skipped by the caller. -/
def toFiling (r : RawFiling) : Option Filing :=
  (parseDate r.filing_date).map fun d =>
    ⟨r.cik, r.company_name, r.form_type, d, r.accession_number⟩

/-- The `FilingFilter` model. -/
structure FilingFilter where
  form_types : Option (List String) := none
  date_from : Option Date := none
  date_to : Option Date := none
  limit : Int := 10
deriving DecidableEq, Repr

/-! ### Company lookup (`SECClient.lookup_company`) -/

/-- Failure of `lookup_company`; both arise as `ValueError` in the source,
distinguished by their raise site and message. -/
inductive LookupError where
  /-- Raised for an empty or whitespace-only ticker. -/
  | invalidInput (msg : String)
  /-- Raised when the normalized ticker has no directory entry. -/
  | notFound (msg : String)
deriving DecidableEq, Repr

instance {ε α : Type} [DecidableEq ε] [DecidableEq α] :
    DecidableEq (Except ε α) := fun x y =>
  match x, y with
  | .ok a, .ok b =>
    if h : a = b then isTrue (by rw [h]) else isFalse (by simp [h])
  | .error a, .error b =>
    if h : a = b then isTrue (by rw [h]) else isFalse (by simp [h])
  | .ok _, .error _ => isFalse (by simp)
  | .error _, .ok _ => isFalse (by simp)

/-- The `lookup_company` method.  `companies` models the
`companies_data` dict as an association list with distinct keys. -/
def lookup_company (companies : List (String × CompanyInfo))
    (ticker : String) : Except LookupError Company :=
  if ticker = "" ∨ pyStrip ticker = "" then
    .error (.invalidInput "Ticker cannot be empty")
  else
    match companies.lookup (pyStrip (pyUpper ticker)) with
    | none => .error (.notFound
        ("Company with ticker \x27" ++ ticker ++ "\x27 not found"))
    | some info =>
      .ok ⟨pyStrip (pyUpper ticker), pyZfill info.cik 10, info.name⟩

/-! ### Filing query (`SECClient.list_filings`) -/

/-- Python slice `l[:limit]` for an `int` limit: a nonnegative limit keeps
the first `limit` elements; a negative limit `-k` drops the last `k`. -/
def pySliceTo {α : Type} (l : List α) (limit : Int) : List α :=
  if 0 ≤ limit then l.take limit.toNat
  else l.take (l.length - (-limit).toNat)

/-- Sort key relation of `filings.sort(key=lambda f: f.filing_date,
reverse=True)`: `f` precedes `g` when `f`'s date is at least `g`'s. -/
def dateGe (f g : Filing) : Prop :=
  Date.le g.filing_date f.filing_date = true

instance : DecidableRel dateGe := fun f g => by
  unfold dateGe; infer_instance

instance : IsTotal Filing dateGe where
  total f g := by
    simp only [dateGe, Date.le, decide_eq_true_eq]
    omega

instance : IsTrans Filing dateGe where
  trans f g h := by
    simp only [dateGe, Date.le, decide_eq_true_eq]
    omega

/-- Stage 1 of `list_filings`: keep the records whose CIK, zero-padded to
10 digits, equals the 10-digit normalization of the queried CIK. -/
def selectByCik (filings_data : List RawFiling) (cik : String) :
    List RawFiling :=
  filings_data.filter fun r => pyZfill r.cik 10 = pyZfill cik 10

/-- Form-type filter stage of `list_filings`: applied only when
`form_types` is present and non-empty. -/
def applyFormTypes (ft : Option (List String)) (filings : List Filing) :
    List Filing :=
  match ft with
  | some ts => if ts.length > 0 then
      filings.filter fun (f : Filing) => ts.contains f.form_type
    else filings
  | none => filings

/-- Lower date-bound stage of `list_filings`: applied only when
`date_from` is set. -/
def applyDateFrom (d? : Option Date) (filings : List Filing) : List Filing :=
  match d? with
  | some d => filings.filter fun (f : Filing) => Date.le d f.filing_date
  | none => filings

/-- Upper date-bound stage of `list_filings`: applied only when
`date_to` is set. -/
def applyDateTo (d? : Option Date) (filings : List Filing) : List Filing :=
  match d? with
  | some d => filings.filter fun (f : Filing) => Date.le f.filing_date d
  | none => filings

/-- Stages 1–5 of `list_filings`: select by normalized CIK, validate
records into `Filing` objects (skipping invalid ones), apply the form-type
and date filters, and sort by date descending (stably, as Python
`list.sort` with `reverse=True`; an insertion sort under the total preorder
`dateGe` computes exactly that stable descending order). -/
def filingsPipeline (filings_data : List RawFiling) (cik : String)
    (filters : FilingFilter) : List Filing :=
  (applyDateTo filters.date_to
    (applyDateFrom filters.date_from
      (applyFormTypes filters.form_types
        ((selectByCik filings_data cik).filterMap toFiling)))).insertionSort
    dateGe

/-- The `list_filings` method: the filter/sort pipeline truncated by the
Python slice `filings[:filters.limit]`. -/
def list_filings (filings_data : List RawFiling) (cik : String)
    (filters : FilingFilter) : List Filing :=
  pySliceTo (filingsPipeline filings_data cik filters) filters.limit

/-! ### Document download (`SECClient.download_filing`)

The `httpx` transport is modelled as an oracle from a URL to the outcome of
`client.get` followed by `response.raise_for_status()`: either a response
with a status code and body, or a transport-level failure
(`httpx.RequestError`).  The filesystem side effects (`mkdir` and
`write_bytes`) are recorded in the outcome rather than performed. -/

/-- Result of one HTTP GET attempt. -/
inductive HttpAttempt where
  /-- A response arrived, with its status code and body bytes. -/
  | response (status : Nat) (body : String)
  /-- The request failed at transport level (`httpx.RequestError`). -/
  | transportFailure (msg : String)
deriving DecidableEq, Repr

/-- Status codes `response.raise_for_status()` accepts (2xx). -/
def isSuccessStatus (status : Nat) : Bool :=
  200 ≤ status ∧ status < 300

/-- Error raised by `download_filing`. -/
inductive DownloadError where
  /-- `ValueError("Failed to download filing: HTTP {status}")`, raised after
  a status failure (with no fallback, or with a failed fallback); carries the
  primary attempt's status code. -/
  | valueErrorStatus (status : Nat)
  /-- `ValueError("Failed to download filing: {e}")`, raised when the
  primary attempt fails at transport level. -/
  | valueErrorTransport (msg : String)
  /-- A transport failure inside the fallback attempt: raised in the
  `except httpx.HTTPStatusError` handler, it propagates uncaught as a raw
  `httpx.RequestError`, not as a `ValueError`. -/
  | uncaughtTransport (msg : String)
deriving DecidableEq, Repr

/-- Directory part of `Path(p).parent` (for relative path strings):
everything before the last slash, or `.` when there is none. -/
def parentDir (p : String) : String :=
  if p.data.contains '/' then
    String.mk ((p.data.reverse.dropWhile (fun c => c ≠ '/')).drop 1).reverse
  else "."

/-- Python `Path(p).with_suffix(suffix)` on a relative path string: in the
final component, the part from the last dot on (if any, and not at the
component's start) is replaced by `suffix`; otherwise `suffix` is
appended. -/
def pyWithSuffix (p suffix : String) : String :=
  let comps := p.data.reverse.takeWhile (fun c => c ≠ '/')
  let stem := comps.reverse
  let dir := p.data.take (p.data.length - stem.length)
  let ext := stem.reverse.takeWhile (fun c => c ≠ '.')
  let newStem :=
    if ext.length + 1 ≤ stem.length ∧ stem.length - (ext.length + 1) ≠ 0 then
      stem.take (stem.length - (ext.length + 1)) ++ suffix.data
    else stem ++ suffix.data
  String.mk (dir ++ newStem)

/-- Python `Path(output_dir) / filename` (path join for relative paths). -/
def joinPath (dir name : String) : String := dir ++ "/" ++ name

/-- Observable outcome of a `download_filing` call: the URLs requested in
order, the directory whose creation was ensured, the file written (path and
body) if any, and the returned path or raised error. -/
structure DownloadOutcome where
  requests : List String
  mkdirs : List String
  written : Option (String × String)
  result : Except DownloadError String
deriving Repr

/-- CIK segment of the remote URL: the record's CIK zero-padded to 10
digits, then stripped of leading zeros (`lstrip("0")`), the empty result
coerced to `"0"`. -/
def cikUrlSegment (cik : String) : String :=
  let s := String.mk ((pyZfill cik 10).data.dropWhile fun c => c = '0')
  if s = "" then "0" else s

/-- The base URL `download_filing` constructs:
`https://www.sec.gov/Archives/edgar/data/{CIK}/{accession_no}`. -/
def downloadBaseUrl (filing : Filing) : String :=
  "https://www.sec.gov/Archives/edgar/data/" ++ cikUrlSegment filing.cik
    ++ "/" ++ pyReplace filing.accession_number "-" ""

/-- The target filename: the caller's, or `{accession_number}.txt`. -/
def defaultFilename (filing : Filing) (filename? : Option String) : String :=
  match filename? with
  | none => filing.accession_number ++ ".txt"
  | some f => f

/-- The path the body is written to: `Path(filename)` when no output
directory is given, else `Path(output_dir) / filename`. -/
def resolvedPath (output_dir : Option String) (filename : String) : String :=
  match output_dir with
  | none => filename
  | some d => joinPath d filename

/-- The attempt/retry core of `download_filing`, with the base URL, target
filename and resolved output path precomputed: try
`{base_url}/{filename}`; on a non-2xx response with a `.txt` filename retry
once at `{base_url}/{filename with .txt replaced by .htm}`; record requests,
the ensured directory, the written file and the returned path or error. -/
def dlRun (http : String → HttpAttempt)
    (base_url filename output_path : String) : DownloadOutcome :=
  match http (base_url ++ "/" ++ filename) with
  | .response status body =>
    if isSuccessStatus status then
      ⟨[base_url ++ "/" ++ filename], [parentDir output_path],
        some (output_path, body), .ok output_path⟩
    else if pyEndsWith filename ".txt" then
      match http (base_url ++ "/" ++ pyReplace filename ".txt" ".htm") with
      | .response status2 body2 =>
        if isSuccessStatus status2 then
          ⟨[base_url ++ "/" ++ filename,
              base_url ++ "/" ++ pyReplace filename ".txt" ".htm"],
            [parentDir output_path],
            some (pyWithSuffix output_path ".htm", body2),
            .ok (pyWithSuffix output_path ".htm")⟩
        else
          ⟨[base_url ++ "/" ++ filename,
              base_url ++ "/" ++ pyReplace filename ".txt" ".htm"],
            [parentDir output_path], none, .error (.valueErrorStatus status)⟩
      | .transportFailure m =>
        ⟨[base_url ++ "/" ++ filename,
            base_url ++ "/" ++ pyReplace filename ".txt" ".htm"],
          [parentDir output_path], none, .error (.uncaughtTransport m)⟩
    else
      ⟨[base_url ++ "/" ++ filename], [parentDir output_path], none,
        .error (.valueErrorStatus status)⟩
  | .transportFailure m =>
    ⟨[base_url ++ "/" ++ filename], [parentDir output_path], none,
      .error (.valueErrorTransport m)⟩

/-- The `download_filing` method, with `http` as the transport oracle. -/
def download_filing (http : String → HttpAttempt) (filing : Filing)
    (output_dir : Option String := none) (filename? : Option String := none) :
    DownloadOutcome :=
  dlRun http (downloadBaseUrl filing) (defaultFilename filing filename?)
    (resolvedPath output_dir (defaultFilename filing filename?))

/-! ### Spec-side classifiers

The specification's error taxonomy groups the two `ValueError` raise sites
of `download_filing` under one name, `DownloadFailed`; `isDownloadFailed`
recognises exactly those, and not the raw `httpx.RequestError` that escapes
the fallback handler. -/

/-- Whether an outcome is the spec's `DownloadFailed`: a `ValueError`
carrying the HTTP status code or the underlying transport error. -/
def isDownloadFailed (r : Except DownloadError String) : Bool :=
  match r with
  | .error (.valueErrorStatus _) => true
  | .error (.valueErrorTransport _) => true
  | _ => false

/-- Whether an attempt produced a response that fails
`raise_for_status()` (a non-2xx status). -/
def statusFailed (a : HttpAttempt) : Bool :=
  match a with
  | .response s _ => !isSuccessStatus s
  | .transportFailure _ => false

/-- Whether an attempt failed at transport level. -/
def transportFailed (a : HttpAttempt) : Bool :=
  match a with
  | .response _ _ => false
  | .transportFailure _ => true

/-- Agreement of two lookup outcomes up to the error message text: equal
success values, or failures raised at the same site. -/
def sameUpToMsg (x y : Except LookupError Company) : Prop :=
  match x, y with
  | .ok a, .ok b => a = b
  | .error (.invalidInput _), .error (.invalidInput _) => True
  | .error (.notFound _), .error (.notFound _) => True
  | _, _ => False

/-! ### Concrete fixtures for witnesses and counterexamples -/

/-- A small filings dataset: four Apple records (one with an invalid date,
one with a pre-padded CIK) and one Microsoft record. -/
def sampleData : List RawFiling := [
  ⟨"320193", "Apple Inc.", "10-K", "2023-11-03", "0000320193-23-000106"⟩,
  ⟨"0000320193", "Apple Inc.", "10-Q", "2023-08-04", "0000320193-23-000077"⟩,
  ⟨"320193", "Apple Inc.", "10-K", "2022-10-28", "0000320193-22-000108"⟩,
  ⟨"320193", "Apple Inc.", "8-K", "bad-date-xx", "0000320193-23-000999"⟩,
  ⟨"789019", "Microsoft Corp", "10-K", "2023-07-27", "0000789019-23-000014"⟩]

/-- A filter exercising all three filter criteria. -/
def fullFilter : FilingFilter :=
  ⟨some ["10-K"], some ⟨2023, 1, 1⟩, some ⟨2023, 12, 31⟩, 10⟩

/-- A filter with a negative limit. -/
def negFilter : FilingFilter := ⟨none, none, none, -1⟩

/-- The newest matching Apple 10-K record of `sampleData`, validated. -/
def f2023 : Filing :=
  ⟨"320193", "Apple Inc.", "10-K", ⟨2023, 11, 3⟩, "0000320193-23-000106"⟩

/-- A one-entry company directory. -/
def companiesAAPL : List (String × CompanyInfo) :=
  [("AAPL", ⟨"320193", "Apple Inc."⟩)]

/-- A directory whose stored raw identifier has 11 digits. -/
def companiesLong : List (String × CompanyInfo) :=
  [("LONGCIK", ⟨"12345678901", "Long CIK Corp"⟩)]

/-- Transport oracle: every request succeeds with status 200. -/
def oracleOk : String → HttpAttempt := fun _ => .response 200 "document body"

/-- Transport oracle: `.txt` requests get status 404, everything else
succeeds, so the `.htm` fallback succeeds. -/
def oracleHtmOnly : String → HttpAttempt := fun u =>
  if pyEndsWith u ".txt" then .response 404 "not found"
  else .response 200 "html body"

/-- Transport oracle: `.txt` requests get status 404 and all other
requests fail at transport level, so the fallback raises a raw
`httpx.RequestError`. -/
def oracleTxt404HtmDown : String → HttpAttempt := fun u =>
  if pyEndsWith u ".txt" then .response 404 "not found"
  else .transportFailure "connection reset"

/-! ### Helper lemmas on the string primitives -/

theorem zfillChars_length (cs : List Char) (w : Nat) :
    (zfillChars cs w).length = max w cs.length := by
  cases cs with
  | nil => simp [zfillChars]
  | cons c rest =>
    simp only [zfillChars]
    split <;> (simp; try omega)

theorem pyZfill_length (s : String) (w : Nat) :
    (pyZfill s w).length = max w s.length :=
  zfillChars_length s.data w

theorem zfillChars_of_no_sign (cs : List Char) (w : Nat)
    (h : ∀ c, cs.head? = some c → c ≠ '+' ∧ c ≠ '-') :
    zfillChars cs w = List.replicate (w - cs.length) '0' ++ cs := by
  cases cs with
  | nil => simp [zfillChars]
  | cons c rest =>
    have hc := h c rfl
    simp only [zfillChars]
    rw [if_neg]
    simp [hc.1, hc.2]

theorem all_dropWhile_iff (p : Char → Bool) (l : List Char) :
    (∀ c ∈ l.dropWhile p, p c = true) ↔ (∀ c ∈ l, p c = true) := by
  constructor
  · intro h c hc
    have hsplit : l.takeWhile p ++ l.dropWhile p = l :=
      List.takeWhile_append_dropWhile p l
    rw [← hsplit] at hc
    rcases List.mem_append.mp hc with h1 | h2
    · exact List.mem_takeWhile_imp h1
    · exact h c h2
  · intro h c hc
    exact h c ((List.dropWhile_sublist p).subset hc)

theorem stripChars_eq_nil_iff (cs : List Char) :
    stripChars cs = [] ↔ ∀ c ∈ cs, pyIsSpace c = true := by
  unfold stripChars
  rw [List.reverse_eq_nil_iff, List.dropWhile_eq_nil_iff]
  constructor
  · intro h
    rw [← all_dropWhile_iff pyIsSpace cs]
    intro c hc
    exact h c (List.mem_reverse.mpr hc)
  · intro h c hc
    exact h c ((List.dropWhile_sublist pyIsSpace).subset (List.mem_reverse.mp hc))

theorem pyStrip_eq_empty_iff (s : String) :
    pyStrip s = "" ↔ ∀ c ∈ s.data, pyIsSpace c = true := by
  rw [← stripChars_eq_nil_iff]
  constructor
  · intro h
    simpa using congrArg String.data h
  · intro h
    show String.mk _ = _
    rw [h]

theorem pyIsSpace_pyToUpper (c : Char) :
    pyIsSpace (pyToUpper c) = pyIsSpace c := by
  unfold pyToUpper
  split
  · rename_i h
    have h2 : (c.toNat - 32).isValidChar := Or.inl (by omega)
    have h3 : (Char.ofNat (c.toNat - 32)).toNat = c.toNat - 32 := by
      unfold Char.ofNat
      rw [dif_pos h2]
      rfl
    have hc : pyIsSpace c = false := by
      simp only [pyIsSpace, Bool.or_eq_false_iff, decide_eq_false_iff_not]
      omega
    have hup : pyIsSpace (Char.ofNat (c.toNat - 32)) = false := by
      simp only [pyIsSpace, Bool.or_eq_false_iff, decide_eq_false_iff_not, h3]
      omega
    rw [hc, hup]
  · rfl

theorem pyStrip_pyUpper_eq_empty_iff (s : String) :
    pyStrip (pyUpper s) = "" ↔ pyStrip s = "" := by
  rw [pyStrip_eq_empty_iff, pyStrip_eq_empty_iff]
  constructor
  · intro h c hc
    rw [← pyIsSpace_pyToUpper c]
    exact h (pyToUpper c) (List.mem_map_of_mem pyToUpper hc)
  · intro h c hc
    rcases List.mem_map.mp hc with ⟨d, hd, rfl⟩
    rw [pyIsSpace_pyToUpper d]
    exact h d hd

/-! ### Helper lemmas on the query pipeline -/

theorem pySliceTo_sublist {α : Type} (l : List α) (lim : Int) :
    (pySliceTo l lim).Sublist l := by
  unfold pySliceTo
  split <;> exact List.take_sublist _ _

theorem pySliceTo_length_le {α : Type} (l : List α) {lim : Int}
    (h : 0 ≤ lim) : ((pySliceTo l lim).length : Int) ≤ lim := by
  unfold pySliceTo
  rw [if_pos h]
  have h1 : (l.take lim.toNat).length ≤ lim.toNat := by
    simp [List.length_take]
  omega

theorem mem_applyFormTypes {ft : Option (List String)} {l : List Filing}
    {f : Filing} (h : f ∈ applyFormTypes ft l) :
    f ∈ l ∧ ∀ ts, ft = some ts → 0 < ts.length → f.form_type ∈ ts := by
  cases ft with
  | none => simpa [applyFormTypes] using h
  | some ts =>
    simp only [applyFormTypes] at h
    split at h
    · rcases List.mem_filter.mp h with ⟨hmem, hcond⟩
      refine ⟨hmem, ?_⟩
      intro ts2 hts2 _
      cases hts2
      simpa using hcond
    · rename_i hlen
      refine ⟨h, ?_⟩
      intro ts2 hts2 hpos
      cases hts2
      exact absurd hpos hlen

theorem mem_applyDateFrom {d? : Option Date} {l : List Filing} {f : Filing}
    (h : f ∈ applyDateFrom d? l) :
    f ∈ l ∧ ∀ d, d? = some d → Date.le d f.filing_date = true := by
  cases d? with
  | none => simpa [applyDateFrom] using h
  | some d =>
    rcases List.mem_filter.mp h with ⟨hmem, hcond⟩
    exact ⟨hmem, fun d2 hd2 => by cases hd2; simpa using hcond⟩

theorem mem_applyDateTo {d? : Option Date} {l : List Filing} {f : Filing}
    (h : f ∈ applyDateTo d? l) :
    f ∈ l ∧ ∀ d, d? = some d → Date.le f.filing_date d = true := by
  cases d? with
  | none => simpa [applyDateTo] using h
  | some d =>
    rcases List.mem_filter.mp h with ⟨hmem, hcond⟩
    exact ⟨hmem, fun d2 hd2 => by cases hd2; simpa using hcond⟩

theorem mem_filingsPipeline {data : List RawFiling} {cik : String}
    {fl : FilingFilter} {f : Filing} (h : f ∈ filingsPipeline data cik fl) :
    (∃ r ∈ data, pyZfill r.cik 10 = pyZfill cik 10 ∧ toFiling r = some f) ∧
    (∀ ts, fl.form_types = some ts → 0 < ts.length → f.form_type ∈ ts) ∧
    (∀ d, fl.date_from = some d → Date.le d f.filing_date = true) ∧
    (∀ d, fl.date_to = some d → Date.le f.filing_date d = true) := by
  unfold filingsPipeline at h
  rw [(List.perm_insertionSort dateGe _).mem_iff] at h
  obtain ⟨h, hto⟩ := mem_applyDateTo h
  obtain ⟨h, hfrom⟩ := mem_applyDateFrom h
  obtain ⟨h, hform⟩ := mem_applyFormTypes h
  rcases List.mem_filterMap.mp h with ⟨r, hr, hconv⟩
  rcases List.mem_filter.mp hr with ⟨hrdata, hrcik⟩
  exact ⟨⟨r, hrdata, by simpa using hrcik, hconv⟩, hform, hfrom, hto⟩

theorem mem_list_filings {data : List RawFiling} {cik : String}
    {fl : FilingFilter} {f : Filing} (h : f ∈ list_filings data cik fl) :
    f ∈ filingsPipeline data cik fl :=
  (pySliceTo_sublist _ _).subset h

theorem sorted_filingsPipeline (data : List RawFiling) (cik : String)
    (fl : FilingFilter) : List.Pairwise dateGe (filingsPipeline data cik fl) :=
  List.sorted_insertionSort dateGe _

theorem toFiling_eq_none {r : RawFiling} (h : parseDate r.filing_date = none) :
    toFiling r = none := by
  unfold toFiling
  rw [h]
  rfl

theorem filterMap_toFiling_filter (l : List RawFiling) :
    (l.filter fun r => (parseDate r.filing_date).isSome).filterMap toFiling
      = l.filterMap toFiling := by
  induction l with
  | nil => rfl
  | cons r rest ih =>
    by_cases hq : (parseDate r.filing_date).isSome
    · simp [List.filter_cons, hq, List.filterMap_cons, ih]
    · have hnone : parseDate r.filing_date = none := by
        cases hp : parseDate r.filing_date
        · rfl
        · rw [hp] at hq
          simp at hq
      simp [List.filter_cons, hq, List.filterMap_cons, toFiling_eq_none hnone,
        ih]

theorem selectByCik_filter_comm (data : List RawFiling)
    (q : RawFiling → Bool) (cik : String) :
    selectByCik (data.filter q) cik = (selectByCik data cik).filter q := by
  unfold selectByCik
  rw [List.filter_filter, List.filter_filter]
  simp [Bool.and_comm]

theorem list_filings_drop_invalid (data : List RawFiling) (cik : String)
    (fl : FilingFilter) :
    list_filings (data.filter fun r => (parseDate r.filing_date).isSome)
        cik fl
      = list_filings data cik fl := by
  unfold list_filings filingsPipeline
  rw [selectByCik_filter_comm, filterMap_toFiling_filter]

theorem selectByCik_eq_nil {data : List RawFiling} {cik : String}
    (h : ∀ r ∈ data, pyZfill r.cik 10 ≠ pyZfill cik 10) :
    selectByCik data cik = [] := by
  unfold selectByCik
  rw [List.filter_eq_nil_iff]
  intro r hr
  simpa using h r hr

theorem applyFormTypes_nil (ft : Option (List String)) :
    applyFormTypes ft [] = [] := by
  cases ft with
  | none => rfl
  | some ts =>
    simp only [applyFormTypes]
    split <;> rfl

theorem applyDateFrom_nil (d? : Option Date) : applyDateFrom d? [] = [] := by
  cases d? <;> rfl

theorem applyDateTo_nil (d? : Option Date) : applyDateTo d? [] = [] := by
  cases d? <;> rfl

theorem pySliceTo_nil {α : Type} (lim : Int) : pySliceTo ([] : List α) lim = [] := by
  unfold pySliceTo
  split <;> simp

theorem lookup_company_blank {companies : List (String × CompanyInfo)}
    {ticker : String} (h : pyStrip ticker = "") :
    lookup_company companies ticker
      = .error (.invalidInput "Ticker cannot be empty") := by
  unfold lookup_company
  rw [if_pos (Or.inr h)]

theorem lookup_company_notFound {companies : List (String × CompanyInfo)}
    {ticker : String} (h1 : pyStrip ticker ≠ "")
    (h2 : companies.lookup (pyStrip (pyUpper ticker)) = none) :
    lookup_company companies ticker
      = .error (.notFound
          ("Company with ticker \x27" ++ ticker ++ "\x27 not found")) := by
  have hcond : ¬ (ticker = "" ∨ pyStrip ticker = "") := by
    rintro (rfl | h)
    · exact h1 rfl
    · exact h1 h
  unfold lookup_company
  rw [if_neg hcond, h2]

theorem lookup_company_found {companies : List (String × CompanyInfo)}
    {ticker : String} {info : CompanyInfo} (h1 : pyStrip ticker ≠ "")
    (h2 : companies.lookup (pyStrip (pyUpper ticker)) = some info) :
    lookup_company companies ticker
      = .ok ⟨pyStrip (pyUpper ticker), pyZfill info.cik 10, info.name⟩ := by
  have hcond : ¬ (ticker = "" ∨ pyStrip ticker = "") := by
    rintro (rfl | h)
    · exact h1 rfl
    · exact h1 h
  unfold lookup_company
  rw [if_neg hcond, h2]

/-! ### Branch equations for the download routine -/

theorem dlRun_ok1 {http : String → HttpAttempt}
    {base_url filename output_path : String} {s : Nat} {b : String}
    (h1 : http (base_url ++ "/" ++ filename) = .response s b)
    (hs : isSuccessStatus s = true) :
    dlRun http base_url filename output_path
      = ⟨[base_url ++ "/" ++ filename], [parentDir output_path],
          some (output_path, b), .ok output_path⟩ := by
  unfold dlRun
  rw [h1]
  simp [hs]

theorem dlRun_transport1 {http : String → HttpAttempt}
    {base_url filename output_path : String} {m : String}
    (h1 : http (base_url ++ "/" ++ filename) = .transportFailure m) :
    dlRun http base_url filename output_path
      = ⟨[base_url ++ "/" ++ filename], [parentDir output_path], none,
          .error (.valueErrorTransport m)⟩ := by
  unfold dlRun
  rw [h1]

theorem dlRun_noTxt {http : String → HttpAttempt}
    {base_url filename output_path : String} {s : Nat} {b : String}
    (h1 : http (base_url ++ "/" ++ filename) = .response s b)
    (hs : isSuccessStatus s = false)
    (ht : pyEndsWith filename ".txt" = false) :
    dlRun http base_url filename output_path
      = ⟨[base_url ++ "/" ++ filename], [parentDir output_path], none,
          .error (.valueErrorStatus s)⟩ := by
  unfold dlRun
  rw [h1]
  simp [hs, ht]

theorem dlRun_ok2 {http : String → HttpAttempt}
    {base_url filename output_path : String} {s s2 : Nat} {b b2 : String}
    (h1 : http (base_url ++ "/" ++ filename) = .response s b)
    (hs : isSuccessStatus s = false)
    (ht : pyEndsWith filename ".txt" = true)
    (h2 : http (base_url ++ "/" ++ pyReplace filename ".txt" ".htm")
      = .response s2 b2)
    (hs2 : isSuccessStatus s2 = true) :
    dlRun http base_url filename output_path
      = ⟨[base_url ++ "/" ++ filename,
            base_url ++ "/" ++ pyReplace filename ".txt" ".htm"],
          [parentDir output_path],
          some (pyWithSuffix output_path ".htm", b2),
          .ok (pyWithSuffix output_path ".htm")⟩ := by
  unfold dlRun
  rw [h1]
  simp only [hs, Bool.false_eq_true, if_false, ht, if_true]
  rw [h2]
  simp [hs2]

theorem dlRun_status2 {http : String → HttpAttempt}
    {base_url filename output_path : String} {s s2 : Nat} {b b2 : String}
    (h1 : http (base_url ++ "/" ++ filename) = .response s b)
    (hs : isSuccessStatus s = false)
    (ht : pyEndsWith filename ".txt" = true)
    (h2 : http (base_url ++ "/" ++ pyReplace filename ".txt" ".htm")
      = .response s2 b2)
    (hs2 : isSuccessStatus s2 = false) :
    dlRun http base_url filename output_path
      = ⟨[base_url ++ "/" ++ filename,
            base_url ++ "/" ++ pyReplace filename ".txt" ".htm"],
          [parentDir output_path], none, .error (.valueErrorStatus s)⟩ := by
  unfold dlRun
  rw [h1]
  simp only [hs, Bool.false_eq_true, if_false, ht, if_true]
  rw [h2]
  simp [hs2]

theorem dlRun_transport2 {http : String → HttpAttempt}
    {base_url filename output_path : String} {s : Nat} {b m : String}
    (h1 : http (base_url ++ "/" ++ filename) = .response s b)
    (hs : isSuccessStatus s = false)
    (ht : pyEndsWith filename ".txt" = true)
    (h2 : http (base_url ++ "/" ++ pyReplace filename ".txt" ".htm")
      = .transportFailure m) :
    dlRun http base_url filename output_path
      = ⟨[base_url ++ "/" ++ filename,
            base_url ++ "/" ++ pyReplace filename ".txt" ".htm"],
          [parentDir output_path], none, .error (.uncaughtTransport m)⟩ := by
  unfold dlRun
  rw [h1]
  simp only [hs, Bool.false_eq_true, if_false, ht, if_true]
  rw [h2]

theorem dlRun_requests_head (http : String → HttpAttempt)
    (base_url filename output_path : String) :
    (dlRun http base_url filename output_path).requests.head?
      = some (base_url ++ "/" ++ filename) := by
  cases h1 : http (base_url ++ "/" ++ filename) with
  | response s b =>
    cases hs : isSuccessStatus s with
    | true =>
      rw [dlRun_ok1 h1 hs]
      rfl
    | false =>
      cases ht : pyEndsWith filename ".txt" with
      | false =>
        rw [dlRun_noTxt h1 hs ht]
        rfl
      | true =>
        cases h2 : http (base_url ++ "/" ++ pyReplace filename ".txt" ".htm")
          with
        | response s2 b2 =>
          cases hs2 : isSuccessStatus s2 with
          | true =>
            rw [dlRun_ok2 h1 hs ht h2 hs2]
            rfl
          | false =>
            rw [dlRun_status2 h1 hs ht h2 hs2]
            rfl
        | transportFailure m =>
          rw [dlRun_transport2 h1 hs ht h2]
          rfl
  | transportFailure m =>
    rw [dlRun_transport1 h1]
    rfl

theorem dlRun_retry_policy (http : String → HttpAttempt)
    (base_url filename output_path : String) :
    ((dlRun http base_url filename output_path).requests
        = [base_url ++ "/" ++ filename] ∨
      (dlRun http base_url filename output_path).requests
        = [base_url ++ "/" ++ filename,
           base_url ++ "/" ++ pyReplace filename ".txt" ".htm"]) ∧
    ((dlRun http base_url filename output_path).requests
        = [base_url ++ "/" ++ filename,
           base_url ++ "/" ++ pyReplace filename ".txt" ".htm"] ↔
      statusFailed (http (base_url ++ "/" ++ filename)) = true ∧
      pyEndsWith filename ".txt" = true) ∧
    (isDownloadFailed (dlRun http base_url filename output_path).result
        = true ↔
      (transportFailed (http (base_url ++ "/" ++ filename)) = true ∨
        (statusFailed (http (base_url ++ "/" ++ filename)) = true ∧
          (pyEndsWith filename ".txt" = false ∨
            statusFailed (http (base_url ++ "/"
              ++ pyReplace filename ".txt" ".htm")) = true)))) := by
  cases h1 : http (base_url ++ "/" ++ filename) with
  | response s b =>
    cases hs : isSuccessStatus s with
    | true =>
      rw [dlRun_ok1 h1 hs]
      simp [statusFailed, transportFailed, isDownloadFailed, hs]
    | false =>
      cases ht : pyEndsWith filename ".txt" with
      | false =>
        rw [dlRun_noTxt h1 hs ht]
        simp [statusFailed, transportFailed, isDownloadFailed, hs, ht]
      | true =>
        cases h2 : http (base_url ++ "/" ++ pyReplace filename ".txt" ".htm")
          with
        | response s2 b2 =>
          cases hs2 : isSuccessStatus s2 with
          | true =>
            rw [dlRun_ok2 h1 hs ht h2 hs2]
            simp [statusFailed, transportFailed, isDownloadFailed, hs, ht,
              hs2]
          | false =>
            rw [dlRun_status2 h1 hs ht h2 hs2]
            simp [statusFailed, transportFailed, isDownloadFailed, hs, ht,
              hs2]
        | transportFailure m =>
          rw [dlRun_transport2 h1 hs ht h2]
          simp [statusFailed, transportFailed, isDownloadFailed, hs, ht]
  | transportFailure m =>
    rw [dlRun_transport1 h1]
    simp [statusFailed, transportFailed, isDownloadFailed]

theorem dlRun_success_write (http : String → HttpAttempt)
    (base_url filename output_path : String) (p : String)
    (h : (dlRun http base_url filename output_path).result = .ok p) :
    (dlRun http base_url filename output_path).mkdirs
      = [parentDir output_path] ∧
    (∃ b, (dlRun http base_url filename output_path).written
      = some (p, b)) ∧
    (p = output_path ∨ p = pyWithSuffix output_path ".htm") := by
  cases h1 : http (base_url ++ "/" ++ filename) with
  | response s b =>
    cases hs : isSuccessStatus s with
    | true =>
      rw [dlRun_ok1 h1 hs] at h ⊢
      simp only [Except.ok.injEq] at h
      exact ⟨rfl, ⟨b, by rw [h]⟩, Or.inl h.symm⟩
    | false =>
      cases ht : pyEndsWith filename ".txt" with
      | false =>
        rw [dlRun_noTxt h1 hs ht] at h
        simp at h
      | true =>
        cases h2 : http (base_url ++ "/" ++ pyReplace filename ".txt" ".htm")
          with
        | response s2 b2 =>
          cases hs2 : isSuccessStatus s2 with
          | true =>
            rw [dlRun_ok2 h1 hs ht h2 hs2] at h ⊢
            simp only [Except.ok.injEq] at h
            exact ⟨rfl, ⟨b2, by rw [h]⟩, Or.inr h.symm⟩
          | false =>
            rw [dlRun_status2 h1 hs ht h2 hs2] at h
            simp at h
        | transportFailure m =>
          rw [dlRun_transport2 h1 hs ht h2] at h
          simp at h
  | transportFailure m =>
    rw [dlRun_transport1 h1] at h
    simp at h

/-! ### The claims -/

/-- C1 counterexample: with a negative limit the length bound of the claim
fails.  Querying `sampleData` for the Apple CIK with `limit = -1` returns
two records (Python slice semantics drop the last element of the three
matching valid records), and 2 does not not-exceed −1, so the claimed
conjunction "sorted and length ≤ limit" is false at this query. -/
theorem claim1_counterexample :
    ¬ (List.Pairwise dateGe (list_filings sampleData "320193" negFilter) ∧
      ((list_filings sampleData "320193" negFilter).length : Int)
        ≤ negFilter.limit) := by
  intro ⟨_, h⟩
  revert h
  decide

/-- C1 (amended): for every query the result is sorted non-increasing by
filing date; whenever `limit` is nonnegative the length never exceeds
`limit`, and a limit of 0 yields the empty sequence.  (For negative limits
the length bound fails, see the counterexample.) -/
theorem claim1_sorted_and_bounded (data : List RawFiling) (cik : String)
    (fl : FilingFilter) :
    List.Pairwise dateGe (list_filings data cik fl) ∧
    (0 ≤ fl.limit → ((list_filings data cik fl).length : Int) ≤ fl.limit) ∧
    (fl.limit = 0 → list_filings data cik fl = []) := by
  refine ⟨?_, ?_, ?_⟩
  · exact List.Pairwise.sublist (pySliceTo_sublist _ _)
      (sorted_filingsPipeline data cik fl)
  · intro h
    exact pySliceTo_length_le _ h
  · intro h
    unfold list_filings pySliceTo
    rw [h]
    simp

/-- Witness for C1 (amended) at a concrete query. -/
theorem claim1_witness :
    ((list_filings sampleData "320193" ⟨none, none, none, 10⟩).length : Int)
        ≤ 10 ∧
    list_filings sampleData "320193" ⟨none, none, none, 0⟩ = [] :=
  ⟨(claim1_sorted_and_bounded sampleData "320193"
      ⟨none, none, none, 10⟩).2.1 (by decide),
   (claim1_sorted_and_bounded sampleData "320193"
      ⟨none, none, none, 0⟩).2.2 rfl⟩

/-- C2: every returned record's CIK normalizes to the normalized queried
CIK; when a non-empty form-type set is given the record's form type is in
it; and any date bounds given are satisfied by the record's filing date. -/
theorem claim2_filter_soundness (data : List RawFiling) (cik : String)
    (fl : FilingFilter) (f : Filing) (hf : f ∈ list_filings data cik fl) :
    pyZfill f.cik 10 = pyZfill cik 10 ∧
    (∀ ts, fl.form_types = some ts → 0 < ts.length → f.form_type ∈ ts) ∧
    (∀ d, fl.date_from = some d → Date.le d f.filing_date = true) ∧
    (∀ d, fl.date_to = some d → Date.le f.filing_date d = true) := by
  obtain ⟨⟨r, hr, hcik, hconv⟩, hform, hfrom, hto⟩ :=
    mem_filingsPipeline (mem_list_filings hf)
  have hfc : f.cik = r.cik := by
    unfold toFiling at hconv
    cases hp : parseDate r.filing_date with
    | none => rw [hp] at hconv; simp at hconv
    | some d =>
      rw [hp] at hconv
      simp only [Option.map_some', Option.some.injEq] at hconv
      rw [← hconv]
  exact ⟨hfc ▸ hcik, hform, hfrom, hto⟩

/-- Witness for C2 at a concrete query with all criteria set. -/
theorem claim2_witness :
    pyZfill f2023.cik 10 = pyZfill "320193" 10 ∧
    f2023.form_type ∈ ["10-K"] ∧
    Date.le ⟨2023, 1, 1⟩ f2023.filing_date = true ∧
    Date.le f2023.filing_date ⟨2023, 12, 31⟩ = true :=
  have h := claim2_filter_soundness sampleData "320193" fullFilter f2023
    (by decide)
  ⟨h.1, h.2.1 ["10-K"] rfl (by decide), h.2.2.1 ⟨2023, 1, 1⟩ rfl,
   h.2.2.2 ⟨2023, 12, 31⟩ rfl⟩

/-- C6: `list_filings` is total (it returns a list, never an error); every
returned record arises from a stored record that matched the CIK and whose
date string validated; dropping the records with unparseable dates from the
store does not change any query result (they are silently excluded); and a
CIK matching no stored record yields the empty sequence. -/
theorem claim6_no_errors (data : List RawFiling) (cik : String)
    (fl : FilingFilter) :
    (∀ f ∈ list_filings data cik fl,
      ∃ r ∈ data, pyZfill r.cik 10 = pyZfill cik 10 ∧ toFiling r = some f) ∧
    (list_filings (data.filter fun r => (parseDate r.filing_date).isSome)
        cik fl
      = list_filings data cik fl) ∧
    ((∀ r ∈ data, pyZfill r.cik 10 ≠ pyZfill cik 10) →
      list_filings data cik fl = []) := by
  refine ⟨?_, list_filings_drop_invalid data cik fl, ?_⟩
  · intro f hf
    exact (mem_filingsPipeline (mem_list_filings hf)).1
  · intro h
    unfold list_filings filingsPipeline
    rw [selectByCik_eq_nil h]
    simp [applyFormTypes_nil, applyDateFrom_nil, applyDateTo_nil,
      pySliceTo_nil]

/-- Witness for C6 at a concrete query matching no records. -/
theorem claim6_witness :
    list_filings sampleData "999999" ⟨none, none, none, 10⟩ = [] :=
  (claim6_no_errors sampleData "999999" ⟨none, none, none, 10⟩).2.2
    (by decide)

/-- C10: a query with limit `-k` (`k > 0`) returns the first
`n - k` records (truncated subtraction, so `max (0, n - k)`) of the
sorted filtered match list of length `n`; it differs from the full list
whenever that list is non-empty, and is empty exactly when `k ≥ n`. -/
theorem claim10_negative_limit (data : List RawFiling) (cik : String)
    (fl : FilingFilter) (k : Nat) (hk : 0 < k) (hl : fl.limit = -(k : Int)) :
    list_filings data cik fl
      = (filingsPipeline data cik fl).take
          ((filingsPipeline data cik fl).length - k) ∧
    (filingsPipeline data cik fl ≠ [] →
      list_filings data cik fl ≠ filingsPipeline data cik fl) ∧
    (list_filings data cik fl = [] ↔
      (filingsPipeline data cik fl).length ≤ k) := by
  have hneg : ¬ (0 ≤ fl.limit) := by
    rw [hl]
    omega
  have heq : list_filings data cik fl
      = (filingsPipeline data cik fl).take
          ((filingsPipeline data cik fl).length - k) := by
    unfold list_filings pySliceTo
    rw [if_neg hneg, hl]
    simp
  refine ⟨heq, ?_, ?_⟩
  · intro hne hcontra
    have hn : (filingsPipeline data cik fl).length ≠ 0 := by
      intro h0
      exact hne (List.length_eq_zero.mp h0)
    rw [heq] at hcontra
    have hlen := congrArg List.length hcontra
    rw [List.length_take] at hlen
    omega
  · rw [heq]
    constructor
    · intro h0
      have hlen := congrArg List.length h0
      rw [List.length_take] at hlen
      simp at hlen
      omega
    · intro hle
      have h0 : (filingsPipeline data cik fl).length - k = 0 := by omega
      rw [h0]
      simp

/-- C3: `lookup_company` fails with `InvalidInput` iff the ticker is empty
or all whitespace; it fails with `NotFound` iff the ticker is non-blank and
its uppercased, trimmed form has no directory entry; otherwise it
succeeds. -/
theorem claim3_error_conditions (companies : List (String × CompanyInfo))
    (ticker : String) :
    ((∃ m, lookup_company companies ticker = .error (.invalidInput m)) ↔
      (∀ c ∈ ticker.data, pyIsSpace c = true)) ∧
    ((∃ m, lookup_company companies ticker = .error (.notFound m)) ↔
      (¬ (∀ c ∈ ticker.data, pyIsSpace c = true) ∧
        companies.lookup (pyStrip (pyUpper ticker)) = none)) ∧
    ((∃ c, lookup_company companies ticker = .ok c) ↔
      (¬ (∀ c ∈ ticker.data, pyIsSpace c = true) ∧
        ∃ info, companies.lookup (pyStrip (pyUpper ticker)) = some info)) := by
  by_cases hb : pyStrip ticker = ""
  · have hall := (pyStrip_eq_empty_iff ticker).mp hb
    have hlk := @lookup_company_blank companies ticker hb
    refine ⟨⟨fun _ => hall, fun _ => ⟨_, hlk⟩⟩,
      ⟨?_, fun ⟨hn, _⟩ => absurd hall hn⟩,
      ⟨?_, fun ⟨hn, _⟩ => absurd hall hn⟩⟩
    · rintro ⟨m, hm⟩
      rw [hlk] at hm
      simp at hm
    · rintro ⟨c, hc⟩
      rw [hlk] at hc
      simp at hc
  · have hnall : ¬ (∀ c ∈ ticker.data, pyIsSpace c = true) :=
      fun hall => hb ((pyStrip_eq_empty_iff ticker).mpr hall)
    cases hl : companies.lookup (pyStrip (pyUpper ticker)) with
    | none =>
      have hlk := lookup_company_notFound hb hl
      refine ⟨⟨?_, fun hall => absurd hall hnall⟩,
        ⟨fun _ => ⟨hnall, rfl⟩, fun _ => ⟨_, hlk⟩⟩, ⟨?_, ?_⟩⟩
      · rintro ⟨m, hm⟩
        rw [hlk] at hm
        simp at hm
      · rintro ⟨c, hc⟩
        rw [hlk] at hc
        simp at hc
      · rintro ⟨_, info, hinfo⟩
        simp at hinfo
    | some info =>
      have hlk := lookup_company_found hb hl
      refine ⟨⟨?_, fun hall => absurd hall hnall⟩, ⟨?_, ?_⟩,
        ⟨fun _ => ⟨hnall, info, rfl⟩, fun _ => ⟨_, hlk⟩⟩⟩
      · rintro ⟨m, hm⟩
        rw [hlk] at hm
        simp at hm
      · rintro ⟨m, hm⟩
        rw [hlk] at hm
        simp at hm
      · rintro ⟨_, hnone⟩
        simp at hnone

/-- Witness for C3 at the three concrete outcomes. -/
theorem claim3_witness :
    (∃ m, lookup_company companiesAAPL "   " = .error (.invalidInput m)) ∧
    (∃ m, lookup_company companiesAAPL "msft" = .error (.notFound m)) ∧
    (∃ c, lookup_company companiesAAPL "aapl" = .ok c) :=
  ⟨(claim3_error_conditions companiesAAPL "   ").1.mpr (by decide),
   (claim3_error_conditions companiesAAPL "msft").2.1.mpr
     ⟨by decide, by decide⟩,
   (claim3_error_conditions companiesAAPL "aapl").2.2.mpr
     ⟨by decide, ⟨⟨"320193", "Apple Inc."⟩, by decide⟩⟩⟩

/-- C4 counterexample: a stored raw identifier of 11 digits yields an
11-character identifier (`zfill` never truncates), so "exactly 10
characters" fails for this directory. -/
theorem claim4_counterexample :
    lookup_company companiesLong "LONGCIK"
      = .ok ⟨"LONGCIK", "12345678901", "Long CIK Corp"⟩ ∧
    ("12345678901" : String).length ≠ 10 := by
  constructor
  · decide
  · decide

/-- C4 (amended): on success the identifier is the stored raw identifier
zero-filled to width 10, hence of length `max 10 (raw length)` — exactly 10
whenever the stored identifier has at most 10 characters — and is the raw
identifier left-padded with `0` whenever it carries no leading sign
character. -/
theorem claim4_padded_identifier (companies : List (String × CompanyInfo))
    (ticker : String) (c : Company)
    (h : lookup_company companies ticker = .ok c) :
    ∃ info, companies.lookup (pyStrip (pyUpper ticker)) = some info ∧
      c.cik = pyZfill info.cik 10 ∧
      c.cik.length = max 10 info.cik.length ∧
      (info.cik.length ≤ 10 → c.cik.length = 10) ∧
      ((∀ ch, info.cik.data.head? = some ch → ch ≠ '+' ∧ ch ≠ '-') →
        c.cik.data
          = List.replicate (10 - info.cik.length) '0' ++ info.cik.data) := by
  unfold lookup_company at h
  split at h
  · simp at h
  · split at h
    · simp at h
    · rename_i info heq
      simp only [Except.ok.injEq] at h
      subst h
      refine ⟨info, heq, rfl, pyZfill_length info.cik 10, ?_, ?_⟩
      · intro hle
        rw [show (Company.mk (pyStrip (pyUpper ticker))
            (pyZfill info.cik 10) info.name).cik = pyZfill info.cik 10
          from rfl]
        rw [pyZfill_length]
        omega
      · intro hns
        show (String.mk (zfillChars info.cik.data 10)).data = _
        rw [zfillChars_of_no_sign info.cik.data 10 hns]
        rfl

/-- Witness for C4 (amended) at a concrete successful lookup. -/
theorem claim4_witness :
    ∃ info, companiesAAPL.lookup (pyStrip (pyUpper "aapl")) = some info ∧
      (Company.mk "AAPL" "0000320193" "Apple Inc.").cik
        = pyZfill info.cik 10 ∧
      (Company.mk "AAPL" "0000320193" "Apple Inc.").cik.length
        = max 10 info.cik.length ∧
      (info.cik.length ≤ 10 →
        (Company.mk "AAPL" "0000320193" "Apple Inc.").cik.length = 10) ∧
      ((∀ ch, info.cik.data.head? = some ch → ch ≠ '+' ∧ ch ≠ '-') →
        (Company.mk "AAPL" "0000320193" "Apple Inc.").cik.data
          = List.replicate (10 - info.cik.length) '0' ++ info.cik.data) :=
  claim4_padded_identifier companiesAAPL "aapl"
    ⟨"AAPL", "0000320193", "Apple Inc."⟩ (by decide)

/-- C5 counterexample: for an absent ticker the two `NotFound` failures
embed the original, un-normalized input in their message, so two inputs
with equal normalized forms do not yield identical results. -/
theorem claim5_counterexample :
    pyStrip (pyUpper "aapl") = pyStrip (pyUpper "AAPL") ∧
    lookup_company [] "aapl" ≠ lookup_company [] "AAPL" := by
  constructor
  · decide
  · decide

/-- C5 (amended): two tickers with equal uppercased, trimmed forms yield
the same outcome up to the error message text: the same success value, or
failures raised at the same site (the `NotFound` message embeds the raw
input and may differ). -/
theorem claim5_case_insensitive (companies : List (String × CompanyInfo))
    (t1 t2 : String) (h : pyStrip (pyUpper t1) = pyStrip (pyUpper t2)) :
    sameUpToMsg (lookup_company companies t1)
      (lookup_company companies t2) := by
  by_cases hb1 : pyStrip t1 = ""
  · have hb2 : pyStrip t2 = "" := by
      rw [← pyStrip_pyUpper_eq_empty_iff, ← h,
        pyStrip_pyUpper_eq_empty_iff]
      exact hb1
    rw [lookup_company_blank hb1, lookup_company_blank hb2]
    trivial
  · have hb2 : pyStrip t2 ≠ "" := by
      intro hc
      apply hb1
      rw [← pyStrip_pyUpper_eq_empty_iff, h, pyStrip_pyUpper_eq_empty_iff]
      exact hc
    cases hl : companies.lookup (pyStrip (pyUpper t1)) with
    | none =>
      have hl2 : companies.lookup (pyStrip (pyUpper t2)) = none := by
        rw [← h]
        exact hl
      rw [lookup_company_notFound hb1 hl, lookup_company_notFound hb2 hl2]
      trivial
    | some info =>
      have hl2 : companies.lookup (pyStrip (pyUpper t2)) = some info := by
        rw [← h]
        exact hl
      rw [lookup_company_found hb1 hl, lookup_company_found hb2 hl2]
      show (Company.mk (pyStrip (pyUpper t1)) (pyZfill info.cik 10) info.name)
          = Company.mk (pyStrip (pyUpper t2)) (pyZfill info.cik 10) info.name
      rw [h]

/-- Witness for C5 (amended) at two concrete equal-normalization
tickers. -/
theorem claim5_witness :
    sameUpToMsg (lookup_company companiesAAPL "aapl")
      (lookup_company companiesAAPL "AaPl") :=
  claim5_case_insensitive companiesAAPL "aapl" "AaPl" (by decide)

/-- C7 counterexample: when the primary `.txt` attempt fails with a non-2xx
status and the `.htm` fallback then fails at transport level, both attempts
have failed, yet the outcome is not the spec's `DownloadFailed`: the
transport error is raised inside the `except httpx.HTTPStatusError` handler
and propagates uncaught as a raw `httpx.RequestError`, not as the
`ValueError`. -/
theorem claim7_counterexample :
    (download_filing oracleTxt404HtmDown f2023 none none).result
      = .error (.uncaughtTransport "connection reset") ∧
    isDownloadFailed
      (download_filing oracleTxt404HtmDown f2023 none none).result
      = false ∧
    (download_filing oracleTxt404HtmDown f2023 none none).requests.length
      = 2 := by
  refine ⟨?_, ?_, ?_⟩ <;> decide

/-- C7 (amended): the `.htm` fallback is attempted exactly once, and only
when the primary attempt fails with a non-2xx status and the attempted
filename ends in `.txt`; the outcome is `DownloadFailed` exactly when the
primary attempt fails at transport level, or the primary attempt fails
non-2xx with either no `.txt` filename or a fallback that also fails
non-2xx.  (A transport failure during the fallback instead escapes as a
raw transport error, see the counterexample.) -/
theorem claim7_fallback_policy (http : String → HttpAttempt)
    (filing : Filing) (dir fn? : Option String) :
    ((download_filing http filing dir fn?).requests
        = [downloadBaseUrl filing ++ "/" ++ defaultFilename filing fn?] ∨
      (download_filing http filing dir fn?).requests
        = [downloadBaseUrl filing ++ "/" ++ defaultFilename filing fn?,
           downloadBaseUrl filing ++ "/"
             ++ pyReplace (defaultFilename filing fn?) ".txt" ".htm"]) ∧
    ((download_filing http filing dir fn?).requests
        = [downloadBaseUrl filing ++ "/" ++ defaultFilename filing fn?,
           downloadBaseUrl filing ++ "/"
             ++ pyReplace (defaultFilename filing fn?) ".txt" ".htm"] ↔
      statusFailed (http (downloadBaseUrl filing ++ "/"
          ++ defaultFilename filing fn?)) = true ∧
      pyEndsWith (defaultFilename filing fn?) ".txt" = true) ∧
    (isDownloadFailed (download_filing http filing dir fn?).result = true ↔
      (transportFailed (http (downloadBaseUrl filing ++ "/"
          ++ defaultFilename filing fn?)) = true ∨
        (statusFailed (http (downloadBaseUrl filing ++ "/"
            ++ defaultFilename filing fn?)) = true ∧
          (pyEndsWith (defaultFilename filing fn?) ".txt" = false ∨
            statusFailed (http (downloadBaseUrl filing ++ "/"
              ++ pyReplace (defaultFilename filing fn?) ".txt" ".htm"))
              = true)))) := by
  unfold download_filing
  exact dlRun_retry_policy http (downloadBaseUrl filing)
    (defaultFilename filing fn?)
    (resolvedPath dir (defaultFilename filing fn?))

/-- Witness for C7 (amended): a transport failure of the primary attempt
is classified as `DownloadFailed`. -/
theorem claim7_witness :
    isDownloadFailed
      (download_filing (fun _ => .transportFailure "dns failure") f2023
        none none).result = true :=
  (claim7_fallback_policy (fun _ => .transportFailure "dns failure") f2023
    none none).2.2.mpr (by decide)

/-- C8: the first request of every fetch goes to
`https://www.sec.gov/Archives/edgar/data/{cik}/{acc}/{filename}` where the
CIK segment is the owner identifier zero-padded to 10 digits then stripped
of leading zeros (empty coerced to `"0"`), the accession segment is the
document id with all dashes removed, and the filename defaults to
`{documentId}.txt` (dashes retained) when not supplied. -/
theorem claim8_request_url (http : String → HttpAttempt) (filing : Filing)
    (dir fn? : Option String) :
    (download_filing http filing dir fn?).requests.head?
      = some ("https://www.sec.gov/Archives/edgar/data/"
          ++ cikUrlSegment filing.cik
          ++ "/" ++ pyReplace filing.accession_number "-" ""
          ++ "/" ++ defaultFilename filing fn?) ∧
    cikUrlSegment filing.cik
      = (if String.mk ((pyZfill filing.cik 10).data.dropWhile
            fun c => c = '0') = ""
        then "0"
        else String.mk ((pyZfill filing.cik 10).data.dropWhile
            fun c => c = '0')) ∧
    defaultFilename filing fn?
      = fn?.getD (filing.accession_number ++ ".txt") := by
  refine ⟨?_, rfl, ?_⟩
  · unfold download_filing
    exact dlRun_requests_head http (downloadBaseUrl filing)
      (defaultFilename filing fn?)
      (resolvedPath dir (defaultFilename filing fn?))
  · cases fn? <;> rfl

/-- C9 counterexample: when the primary attempt fails and the `.htm`
fallback succeeds, the file is written to — and the returned path is — the
resolved path with its extension changed to `.htm`, not the resolved path
(output directory joined with the target filename) the claim names. -/
theorem claim9_counterexample :
    (download_filing oracleHtmOnly f2023 (some "out") none).result
      = .ok "out/0000320193-23-000106.htm" ∧
    "out/0000320193-23-000106.htm"
      ≠ resolvedPath (some "out") (defaultFilename f2023 none) := by
  constructor <;> decide

/-- C9 (amended): on success the output directory's parent chain is the
one ensured, the response body is written to the returned path, and that
path is the resolved path (primary success) or the resolved path with its
final suffix replaced by `.htm` (fallback success). -/
theorem claim9_success_write (http : String → HttpAttempt)
    (filing : Filing) (dir fn? : Option String) (p : String)
    (h : (download_filing http filing dir fn?).result = .ok p) :
    (download_filing http filing dir fn?).mkdirs
      = [parentDir (resolvedPath dir (defaultFilename filing fn?))] ∧
    (∃ b, (download_filing http filing dir fn?).written = some (p, b)) ∧
    (p = resolvedPath dir (defaultFilename filing fn?) ∨
      p = pyWithSuffix (resolvedPath dir (defaultFilename filing fn?))
          ".htm") := by
  unfold download_filing at h ⊢
  exact dlRun_success_write http (downloadBaseUrl filing)
    (defaultFilename filing fn?)
    (resolvedPath dir (defaultFilename filing fn?)) p h

/-- Witness for C9 (amended) at a concrete successful download. -/
theorem claim9_witness :
    (download_filing oracleOk f2023 (some "out") none).mkdirs
      = [parentDir (resolvedPath (some "out") (defaultFilename f2023 none))] ∧
    (∃ b, (download_filing oracleOk f2023 (some "out") none).written
      = some ("out/0000320193-23-000106.txt", b)) ∧
    ("out/0000320193-23-000106.txt"
        = resolvedPath (some "out") (defaultFilename f2023 none) ∨
      "out/0000320193-23-000106.txt"
        = pyWithSuffix (resolvedPath (some "out")
            (defaultFilename f2023 none)) ".htm") :=
  claim9_success_write oracleOk f2023 (some "out") none
    "out/0000320193-23-000106.txt" (by decide)

/-- Witness for C10 at a concrete query with limit −1. -/
theorem claim10_witness :
    list_filings sampleData "320193" negFilter
      = (filingsPipeline sampleData "320193" negFilter).take
          ((filingsPipeline sampleData "320193" negFilter).length - 1) :=
  (claim10_negative_limit sampleData "320193" negFilter 1 (by decide)
    (by decide)).1

end SecConnector
